import Mathlib

/-!
# Powerloom Production Dashboard — verification of the beam/delivery domain model

Shallow embedding of the FastAPI + MongoDB backend in `backend/main.py`.

Modelling conventions:
* MongoDB documents become Lean structures; `_id` ObjectIds become `Nat`
  identifiers (the store guarantees `_id` uniqueness, so `delete_one {_id: x}`
  is modelled as removing every document whose id equals `x`).
* Python floats (`total_beam_meters`, `meters_per_piece`, prices, amounts)
  become `Rat`; piece counts stay `Int` as in the source.
* `datetime.now().strftime("%Y-%m-%d")` — the server's date at request time —
  is passed to each operation as an explicit `today : String` argument.
* Each handler's `try`-block body becomes a `..._core` function returning
  `Raised α`: `.ok` for success, `.httpExc status detail` for a raised
  `HTTPException`, `.invalidId` for a `bson.errors.InvalidId` raised while
  parsing a malformed ObjectId string.  The handler's `except` clauses become
  the `runHandler` wrapper.
* `created_at` / `updated_at` timestamp metadata fields are not modelled; no
  claim concerns them.  Display-join fields (`workshop_name` etc.) added to
  the response of `get_beam_details` are likewise omitted; the claims concern
  the stored beam and the computed totals.
-/

namespace Powerloom

/-- Outcome of a handler's `try`-block body: success, a raised
`fastapi.HTTPException`, or a raised `bson.errors.InvalidId`. -/
inductive Raised (α : Type) where
  | ok (a : α)
  | httpExc (status : Nat) (detail : String)
  | invalidId
  deriving DecidableEq

/-- The HTTP error ultimately returned to the client. -/
structure HttpErr where
  status : Nat
  detail : String
  deriving DecidableEq

/-- `customers` collection document (contact fields omitted: no claim uses them). -/
structure Customer where
  id : Nat
  name : String
  is_active : Bool
  deriving DecidableEq

/-- `workshops` collection document. -/
structure Workshop where
  id : Nat
  name : String
  location : String
  machine_count : Int
  workshop_type : String
  is_active : Bool
  deriving DecidableEq

/-- `machines` collection document. -/
structure Machine where
  id : Nat
  workshop_id : Nat
  machine_number : Int
  fabric_type : String
  is_active : Bool
  deriving DecidableEq

/-- `design_presets` collection document. -/
structure DesignPreset where
  id : Nat
  price : Rat
  label : String
  is_active : Bool
  deriving DecidableEq

/-- `beams` collection document, as built by `start_new_beam`. -/
structure Beam where
  id : Nat
  beam_number : String
  machine_id : Nat
  workshop_id : Nat
  customer_id : Nat
  fabric_type : String
  total_beam_meters : Rat
  meters_per_piece : Rat
  start_date : String
  end_date : Option String
  status : String
  deriving DecidableEq

/-- `deliveries` collection document, as built by `add_delivery`. -/
structure Delivery where
  id : Nat
  beam_id : Nat
  delivery_date : String
  design_name : String
  price_per_piece : Rat
  good_pieces : Int
  damaged_pieces : Int
  meters_used : Rat
  total_amount : Rat
  notes : Option String
  deriving DecidableEq

/-- The whole persisted state: the six operational collections, plus the
counter from which fresh `_id`s are drawn. -/
structure DB where
  customers : List Customer
  workshops : List Workshop
  machines : List Machine
  design_presets : List DesignPreset
  beams : List Beam
  deliveries : List Delivery
  nextId : Nat
  deriving DecidableEq

/-- The Mongo filter `{"machine_id": mid, "status": "active"}` used both by
`start_new_beam`'s `find_one` and by `delete_machine`'s `count_documents`. -/
def activeOn (mid : Nat) (b : Beam) : Bool :=
  b.machine_id == mid && b.status == "active"

/-- `count_documents({"machine_id": mid, "status": "active"})`. -/
def activeCount (beams : List Beam) (mid : Nat) : Nat :=
  beams.countP (activeOn mid)

/-- The `$set` payload both `end_beam` and `add_delivery` apply through
`update_one({"_id": bid}, ...)`: status becomes completed, end_date today. -/
def completeBeam (today : String) (bid : Nat) (b : Beam) : Beam :=
  if b.id == bid then { b with status := "completed", end_date := some today } else b

/-- Cumulative `meters_used` over `deliveries_col.find({"beam_id": bid})`,
as summed by `add_delivery`. -/
def metersUsedSum (deliveries : List Delivery) (bid : Nat) : Rat :=
  ((deliveries.filter (fun d => d.beam_id == bid)).map (fun d => d.meters_used)).sum

/-- Body of `POST /api/beams/start` (`start_new_beam`): machine lookup,
active-beam check, duplicate-beam_number check, then insert. -/
def start_new_beam_core (db : DB) (beam_number : String) (customer_id machine_id : Nat)
    (total_beam_meters meters_per_piece : Rat) (start_date : String) :
    Raised (DB × Nat) :=
  match db.machines.find? (fun m => m.id == machine_id) with
  | none => .httpExc 404 "Machine not found"
  | some machine =>
    match db.beams.find? (activeOn machine_id) with
    | some existing =>
        .httpExc 400 ("Machine already has an active beam " ++ existing.beam_number)
    | none =>
      match db.beams.find? (fun b => b.beam_number == beam_number) with
      | some _ => .httpExc 400 ("Duplicate entry " ++ beam_number ++ " for beam_number")
      | none =>
        let beam_doc : Beam :=
          { id := db.nextId
            beam_number := beam_number
            machine_id := machine_id
            workshop_id := machine.workshop_id
            customer_id := customer_id
            fabric_type := machine.fabric_type
            total_beam_meters := total_beam_meters
            meters_per_piece := meters_per_piece
            start_date := start_date
            end_date := none
            status := "active" }
        .ok ({ db with beams := db.beams ++ [beam_doc], nextId := db.nextId + 1 }, db.nextId)

/-- Body of `POST /api/beams/{beam_id}/end` (`end_beam`). -/
def end_beam_core (today : String) (db : DB) (beam_id : Nat) : Raised DB :=
  match db.beams.find? (fun b => b.id == beam_id) with
  | none => .httpExc 404 "Beam not found"
  | some beam =>
    if beam.status != "active" then .httpExc 400 "Beam is already completed"
    else .ok { db with beams := db.beams.map (completeBeam today beam_id) }

/-- Body of `DELETE /api/beams/{beam_id}` (`delete_beam`): `delete_one` on the
beam, then `delete_many` on its deliveries. -/
def delete_beam_core (db : DB) (beam_id : Nat) : Raised DB :=
  if db.beams.any (fun b => b.id == beam_id) then
    .ok { db with
          beams := db.beams.filter (fun b => b.id != beam_id)
          deliveries := db.deliveries.filter (fun d => d.beam_id != beam_id) }
  else .httpExc 404 "Beam not found"

/-- Body of `POST /api/deliveries` (`add_delivery`): beam lookup, derived
quantities, insert, then the unconditional auto-completion update.  Note the
source's `update_one` filter is `{"_id": beam_id}` alone — it carries no
`"status": "active"` clause. -/
def add_delivery_core (today : String) (db : DB) (beam_id : Nat)
    (delivery_date design_name : String) (price_per_piece : Rat)
    (good_pieces damaged_pieces : Int) (notes : Option String) :
    Raised (DB × Nat) :=
  match db.beams.find? (fun b => b.id == beam_id) with
  | none => .httpExc 404 "Beam not found"
  | some beam =>
    let total_pieces : Int := good_pieces + damaged_pieces
    let meters_used : Rat := (total_pieces : Rat) * beam.meters_per_piece
    let total_amount : Rat := (good_pieces : Rat) * price_per_piece
    let delivery_doc : Delivery :=
      { id := db.nextId
        beam_id := beam_id
        delivery_date := delivery_date
        design_name := design_name
        price_per_piece := price_per_piece
        good_pieces := good_pieces
        damaged_pieces := damaged_pieces
        meters_used := meters_used
        total_amount := total_amount
        notes := notes }
    let db1 : DB := { db with deliveries := db.deliveries ++ [delivery_doc], nextId := db.nextId + 1 }
    let total_meters_used := metersUsedSum db1.deliveries beam_id
    if total_meters_used ≥ beam.total_beam_meters then
      .ok ({ db1 with beams := db1.beams.map (completeBeam today beam_id) }, db.nextId)
    else
      .ok (db1, db.nextId)

/-- Body of `DELETE /api/deliveries/{delivery_id}` (`delete_delivery`). -/
def delete_delivery_core (db : DB) (delivery_id : Nat) : Raised DB :=
  if db.deliveries.any (fun d => d.id == delivery_id) then
    .ok { db with deliveries := db.deliveries.filter (fun d => d.id != delivery_id) }
  else .httpExc 404 "Delivery not found"

/-- Truncation toward zero, Python's `int()` applied to a float. -/
def truncInt (q : Rat) : Int :=
  if q ≥ 0 then q.floor else -((-q).floor)

/-- The `totals` object computed by `get_beam_details`. -/
structure BeamTotals where
  total_good : Int
  total_damaged : Int
  total_meters_used : Rat
  total_amount : Rat
  remaining_meters : Rat
  estimated_pieces_remaining : Int
  meter_usage_percentage : Rat
  deriving DecidableEq

/-- Body of `GET /api/beams/{beam_id}` (`get_beam_details`): pure read.
The source sorts the delivery list by `delivery_date` descending; the claims
only concern the (order-independent) sums, so the filter order is kept. -/
def get_beam_details_core (db : DB) (beam_id : Nat) :
    Raised (Beam × List Delivery × BeamTotals) :=
  match db.beams.find? (fun b => b.id == beam_id) with
  | none => .httpExc 404 "Beam not found"
  | some beam =>
    let deliveries := db.deliveries.filter (fun d => d.beam_id == beam_id)
    let total_good : Int := (deliveries.map (fun d => d.good_pieces)).sum
    let total_damaged : Int := (deliveries.map (fun d => d.damaged_pieces)).sum
    let total_meters_used : Rat := (deliveries.map (fun d => d.meters_used)).sum
    let total_amount : Rat := (deliveries.map (fun d => d.total_amount)).sum
    let remaining_meters : Rat := beam.total_beam_meters - total_meters_used
    let estimated_pieces : Rat :=
      if beam.meters_per_piece > 0 then remaining_meters / beam.meters_per_piece else 0
    let meter_usage_percentage : Rat :=
      if beam.total_beam_meters > 0 then total_meters_used / beam.total_beam_meters * 100 else 0
    .ok (beam, deliveries,
      { total_good := total_good
        total_damaged := total_damaged
        total_meters_used := total_meters_used
        total_amount := total_amount
        remaining_meters := remaining_meters
        estimated_pieces_remaining := truncInt estimated_pieces
        meter_usage_percentage := meter_usage_percentage })

/-- Body of `DELETE /api/machines/{machine_id}` (`delete_machine`). -/
def delete_machine_core (db : DB) (machine_id : Nat) : Raised DB :=
  if activeCount db.beams machine_id > 0 then
    .httpExc 400 "Cannot delete machine with active beams"
  else if db.machines.any (fun m => m.id == machine_id) then
    .ok { db with machines := db.machines.filter (fun m => m.id != machine_id) }
  else .httpExc 404 "Machine not found"

/-- Body of `DELETE /api/customers/{customer_id}` (`delete_customer`):
a bare `delete_one` — the source performs no Beam-reference check. -/
def delete_customer_core (db : DB) (customer_id : Nat) : Raised DB :=
  if db.customers.any (fun c => c.id == customer_id) then
    .ok { db with customers := db.customers.filter (fun c => c.id != customer_id) }
  else .httpExc 404 "Customer not found"

/-- Body of `DELETE /api/workshops/{workshop_id}` (`delete_workshop`). -/
def delete_workshop_core (db : DB) (workshop_id : Nat) : Raised DB :=
  if (db.machines.countP (fun m => m.workshop_id == workshop_id)) > 0 then
    .httpExc 400 "Cannot delete workshop with existing machines"
  else if db.workshops.any (fun w => w.id == workshop_id) then
    .ok { db with workshops := db.workshops.filter (fun w => w.id != workshop_id) }
  else .httpExc 404 "Workshop not found"

/-- Body of `POST /api/customers` (`create_customer`). -/
def create_customer_core (db : DB) (name : String) : Raised (DB × Nat) :=
  match db.customers.find? (fun c => c.name == name) with
  | some _ => .httpExc 400 "Customer with this name already exists"
  | none =>
      .ok ({ db with
             customers := db.customers ++ [{ id := db.nextId, name := name, is_active := true }]
             nextId := db.nextId + 1 }, db.nextId)

/-- Body of `POST /api/workshops` (`create_workshop`): unconditional insert. -/
def create_workshop_core (db : DB) (name location : String) (machine_count : Int)
    (workshop_type : String) : Raised (DB × Nat) :=
  .ok ({ db with
         workshops := db.workshops ++
           [{ id := db.nextId, name := name, location := location,
              machine_count := machine_count, workshop_type := workshop_type,
              is_active := true }]
         nextId := db.nextId + 1 }, db.nextId)

/-- Body of `POST /api/machines` (`create_machine`). -/
def create_machine_core (db : DB) (workshop_id : Nat) (machine_number : Int)
    (fabric_type : String) : Raised (DB × Nat) :=
  match db.machines.find? (fun m => m.workshop_id == workshop_id &&
      m.machine_number == machine_number) with
  | some _ => .httpExc 400 "Machine number already exists in this workshop"
  | none =>
      .ok ({ db with
             machines := db.machines ++
               [{ id := db.nextId, workshop_id := workshop_id,
                  machine_number := machine_number, fabric_type := fabric_type,
                  is_active := true }]
             nextId := db.nextId + 1 }, db.nextId)

/-- Body of `POST /api/design-presets` (`create_design_preset`). -/
def create_design_preset_core (db : DB) (price : Rat) (label : String) :
    Raised (DB × Nat) :=
  .ok ({ db with
         design_presets := db.design_presets ++
           [{ id := db.nextId, price := price, label := label, is_active := true }]
         nextId := db.nextId + 1 }, db.nextId)

/-- Body of `DELETE /api/design-presets/{preset_id}` (`delete_design_preset`). -/
def delete_design_preset_core (db : DB) (preset_id : Nat) : Raised DB :=
  if db.design_presets.any (fun p => p.id == preset_id) then
    .ok { db with design_presets := db.design_presets.filter (fun p => p.id != preset_id) }
  else .httpExc 404 "Design preset not found"

/-- Body of `PUT /api/customers/{customer_id}/status` (`toggle_customer_status`). -/
def toggle_customer_status_core (db : DB) (customer_id : Nat) (new_status : String) :
    Raised DB :=
  if new_status != "active" && new_status != "inactive" then
    .httpExc 400 "Status must be active or inactive"
  else if db.customers.any (fun c => c.id == customer_id) then
    .ok { db with customers := db.customers.map (fun c =>
            if c.id == customer_id then { c with is_active := new_status == "active" } else c) }
  else .httpExc 404 "Customer not found"

/-- The state an operation leaves behind: the new state on success, the old
state when the body raised (a raise performs no further writes). -/
def applyR (db : DB) : Raised DB → DB
  | .ok db' => db'
  | _ => db

/-- As `applyR`, for operations that also return a fresh identifier. -/
def applyR2 (db : DB) : Raised (DB × Nat) → DB
  | .ok (db', _) => db'
  | _ => db

/-! ### Concrete test fixtures (used by witnesses and counterexamples) -/

/-- Fixture beam. -/
def mkBeam (id : Nat) (bn : String) (mid : Nat) (tbm mpp : Rat) (st : String)
    (ed : Option String) : Beam :=
  { id := id, beam_number := bn, machine_id := mid, workshop_id := 1,
    customer_id := 1, fabric_type := "cotton", total_beam_meters := tbm,
    meters_per_piece := mpp, start_date := "2024-01-01", end_date := ed,
    status := st }

/-- Fixture delivery. -/
def mkDelivery (id bid : Nat) (mu : Rat) : Delivery :=
  { id := id, beam_id := bid, delivery_date := "2024-01-02", design_name := "d",
    price_per_piece := 1, good_pieces := 1, damaged_pieces := 0,
    meters_used := mu, total_amount := 1, notes := none }

/-- Fixture database holding the given beams and deliveries. -/
def mkDB (beams : List Beam) (dels : List Delivery) : DB :=
  { customers := [], workshops := [], machines := [], design_presets := [],
    beams := beams, deliveries := dels, nextId := 100 }

/-! ### Concrete fixture states, the mutation step relation, and the
HTTP handler wrappers (definitions used by the theorems below) -/

/-- Fixture refuting C1: a beam already completed on 2024-01-01 whose single
delivery already exhausted its 10 meters. -/
def dbX1 : DB :=
  mkDB [mkBeam 1 "B1" 1 10 1 "completed" (some "2024-01-01")] [mkDelivery 7 1 10]

/-- Fixture for C3: an active beam with `meters_per_piece = 2`,
`total_beam_meters = 140` and no prior deliveries. -/
def dbW3 : DB := mkDB [mkBeam 1 "B1" 1 140 2 "active" none] []

/-- Fixture for C4: a beam already completed on 2024-01-31. -/
def dbW4 : DB := mkDB [mkBeam 1 "B1" 1 100 2 "completed" (some "2024-01-31")] []

/-- Fixture for C6: two beams, each with one delivery. -/
def dbW6 : DB :=
  mkDB [mkBeam 1 "B1" 1 100 2 "active" none, mkBeam 2 "B2" 2 100 2 "active" none]
    [mkDelivery 10 1 4, mkDelivery 11 2 4]

/-- Fixture for C7: a beam with `total_beam_meters = 0` and
`meters_per_piece = 0` (the division-guard corner) and no deliveries. -/
def dbW7 : DB := mkDB [mkBeam 1 "B1" 1 0 0 "active" none] []

/-- Fixture for C9: a completed beam of 10 total meters whose single delivery
used all 10 meters; removing it makes the remaining meters positive again. -/
def dbW9 : DB :=
  mkDB [mkBeam 1 "B1" 1 10 10 "completed" (some "2024-01-31")] [mkDelivery 5 1 10]

/-- Fixture machine. -/
def mkMachine (id : Nat) : Machine :=
  { id := id, workshop_id := 1, machine_number := 1, fabric_type := "cotton",
    is_active := true }

/-- Fixture refuting C5: machine 1 exists and beam_number B1 is taken
(by an active beam on machine 1). -/
def dbX5 : DB :=
  { mkDB [mkBeam 1 "B1" 1 100 2 "active" none] [] with machines := [mkMachine 1] }

/-- Witness for the amended C5: machine 1 exists and is free, beam_number B1
is taken by a beam on machine 2, so the duplicate-number conflict fires. -/
def dbW5 : DB :=
  { mkDB [mkBeam 1 "B1" 2 100 2 "active" none] [] with machines := [mkMachine 1] }

/-- Fixture refuting C8: customer 1 exists and is referenced by a beam. -/
def dbX8 : DB :=
  { mkDB [mkBeam 1 "B1" 1 100 2 "active" none] [] with
    customers := [{ id := 1, name := "ACME", is_active := true }] }

/-- The initial state: empty collections (what `reset_database` leaves). -/
def initDB : DB :=
  { customers := [], workshops := [], machines := [], design_presets := [],
    beams := [], deliveries := [], nextId := 1 }

/-- One successful API mutation.  Failed calls raise before writing, so they
do not change the state and need no transitions. -/
inductive Step : DB → DB → Prop where
  | startBeam (db : DB) (bn : String) (cid mid : Nat) (t m : Rat) (sd : String)
      (db' : DB) (rid : Nat)
      (h : start_new_beam_core db bn cid mid t m sd = .ok (db', rid)) : Step db db'
  | endBeam (today : String) (db : DB) (bid : Nat) (db' : DB)
      (h : end_beam_core today db bid = .ok db') : Step db db'
  | addDelivery (today : String) (db : DB) (bid : Nat) (dd dn : String) (pr : Rat)
      (g dm : Int) (nt : Option String) (db' : DB) (rid : Nat)
      (h : add_delivery_core today db bid dd dn pr g dm nt = .ok (db', rid)) : Step db db'
  | deleteBeam (db : DB) (bid : Nat) (db' : DB)
      (h : delete_beam_core db bid = .ok db') : Step db db'
  | deleteDelivery (db : DB) (did : Nat) (db' : DB)
      (h : delete_delivery_core db did = .ok db') : Step db db'
  | deleteMachine (db : DB) (mid : Nat) (db' : DB)
      (h : delete_machine_core db mid = .ok db') : Step db db'
  | deleteCustomer (db : DB) (cid : Nat) (db' : DB)
      (h : delete_customer_core db cid = .ok db') : Step db db'
  | deleteWorkshop (db : DB) (wid : Nat) (db' : DB)
      (h : delete_workshop_core db wid = .ok db') : Step db db'
  | deleteDesignPreset (db : DB) (pid : Nat) (db' : DB)
      (h : delete_design_preset_core db pid = .ok db') : Step db db'
  | createCustomer (db : DB) (name : String) (db' : DB) (rid : Nat)
      (h : create_customer_core db name = .ok (db', rid)) : Step db db'
  | createWorkshop (db : DB) (name location : String) (mc : Int) (wt : String)
      (db' : DB) (rid : Nat)
      (h : create_workshop_core db name location mc wt = .ok (db', rid)) : Step db db'
  | createMachine (db : DB) (wid : Nat) (mn : Int) (ft : String) (db' : DB) (rid : Nat)
      (h : create_machine_core db wid mn ft = .ok (db', rid)) : Step db db'
  | createDesignPreset (db : DB) (price : Rat) (label : String) (db' : DB) (rid : Nat)
      (h : create_design_preset_core db price label = .ok (db', rid)) : Step db db'
  | toggleCustomerStatus (db : DB) (cid : Nat) (st : String) (db' : DB)
      (h : toggle_customer_status_core db cid st = .ok db') : Step db db'

/-- States reachable from the empty database by successful API mutations. -/
inductive Reachable : DB → Prop where
  | init : Reachable initDB
  | step (db db' : DB) (h : Reachable db) (hs : Step db db') : Reachable db'

/-- Reachable fixture: a workshop, one machine in it, one active beam. -/
def dbS1 : DB := applyR2 initDB (create_workshop_core initDB "W" "L" 4 "power")

/-- Reachable fixture after also creating machine 2 in workshop 1. -/
def dbS2 : DB := applyR2 dbS1 (create_machine_core dbS1 1 1 "cotton")

/-- Reachable fixture after also starting beam B1 on machine 2. -/
def dbS3 : DB := applyR2 dbS2 (start_new_beam_core dbS2 "B1" 1 2 50 1 "2024-02-01")

/-- The beam started in `dbS3`. -/
def beamS3 : Beam :=
  { id := 3, beam_number := "B1", machine_id := 2, workshop_id := 1,
    customer_id := 1, fabric_type := "cotton", total_beam_meters := 50,
    meters_per_piece := 1, start_date := "2024-02-01", end_date := none,
    status := "active" }

/-- The machine created in `dbS2`. -/
def machineS2 : Machine :=
  { id := 2, workshop_id := 1, machine_number := 1, fabric_type := "cotton",
    is_active := true }

/-- Decimal digits accumulated into a key; any other character fails. -/
def parseDigits : List Char → Nat → Option Nat
  | [], acc => some acc
  | c :: cs, acc =>
      if c.isDigit then parseDigits cs (acc * 10 + (c.toNat - 48)) else none

/-- `ObjectId(s)`: a valid id string parses to a key, a malformed one raises
`InvalidId`.  Validity is abstracted as nonempty decimal parsing. -/
def parseId (s : String) : Option Nat :=
  match s.data with
  | [] => none
  | cs => parseDigits cs 0

/-- `str(e)` of a raised `HTTPException`: `f"{status_code}: {detail}"`. -/
def httpDetail (s : Nat) (d : String) : String := toString s ++ ": " ++ d

/-- The `except` clauses shared by the handlers: `InvalidId` becomes a 400
with the handler's fixed message; a raised `HTTPException` is re-raised
as-is when the handler has an `except HTTPException: raise` clause
(`passHttp = true`), and otherwise falls into the generic `except Exception`
clause, becoming a 500 embedding the original error. -/
def runHandler {α : Type} (passHttp : Bool) (invalidDetail : String) :
    Raised α → Except HttpErr α
  | .ok a => .ok a
  | .invalidId => .error ⟨400, invalidDetail⟩
  | .httpExc s d =>
      if passHttp then .error ⟨s, d⟩ else .error ⟨500, httpDetail s d⟩

/-- `end_beam` body including the ObjectId parse of its path parameter. -/
def end_beam_raised (today : String) (db : DB) (beam_id : String) : Raised DB :=
  match parseId beam_id with
  | none => .invalidId
  | some bid => end_beam_core today db bid

/-- Full `end_beam` handler. -/
def end_beam_handler (today : String) (db : DB) (beam_id : String) :
    Except HttpErr DB :=
  runHandler false "Invalid beam ID" (end_beam_raised today db beam_id)

/-- `get_beam_details` body including the ObjectId parse. -/
def get_beam_details_raised (db : DB) (beam_id : String) :
    Raised (Beam × List Delivery × BeamTotals) :=
  match parseId beam_id with
  | none => .invalidId
  | some bid => get_beam_details_core db bid

/-- Full `get_beam_details` handler. -/
def get_beam_details_handler (db : DB) (beam_id : String) :
    Except HttpErr (Beam × List Delivery × BeamTotals) :=
  runHandler false "Invalid beam ID" (get_beam_details_raised db beam_id)

/-- `delete_beam` body including the ObjectId parse. -/
def delete_beam_raised (db : DB) (beam_id : String) : Raised DB :=
  match parseId beam_id with
  | none => .invalidId
  | some bid => delete_beam_core db bid

/-- Full `delete_beam` handler. -/
def delete_beam_handler (db : DB) (beam_id : String) : Except HttpErr DB :=
  runHandler false "Invalid beam ID" (delete_beam_raised db beam_id)

/-- `add_delivery` body including the ObjectId parse of the payload's
`beam_id`. -/
def add_delivery_raised (today : String) (db : DB) (beam_id : String)
    (dd dn : String) (pr : Rat) (g dm : Int) (nt : Option String) :
    Raised (DB × Nat) :=
  match parseId beam_id with
  | none => .invalidId
  | some bid => add_delivery_core today db bid dd dn pr g dm nt

/-- Full `add_delivery` handler. -/
def add_delivery_handler (today : String) (db : DB) (beam_id : String)
    (dd dn : String) (pr : Rat) (g dm : Int) (nt : Option String) :
    Except HttpErr (DB × Nat) :=
  runHandler false "Invalid beam ID" (add_delivery_raised today db beam_id dd dn pr g dm nt)

/-- `delete_delivery` body including the ObjectId parse. -/
def delete_delivery_raised (db : DB) (delivery_id : String) : Raised DB :=
  match parseId delivery_id with
  | none => .invalidId
  | some did => delete_delivery_core db did

/-- Full `delete_delivery` handler. -/
def delete_delivery_handler (db : DB) (delivery_id : String) : Except HttpErr DB :=
  runHandler false "Invalid delivery ID" (delete_delivery_raised db delivery_id)

/-- `delete_workshop` body including the ObjectId parse. -/
def delete_workshop_raised (db : DB) (workshop_id : String) : Raised DB :=
  match parseId workshop_id with
  | none => .invalidId
  | some wid => delete_workshop_core db wid

/-- Full `delete_workshop` handler. -/
def delete_workshop_handler (db : DB) (workshop_id : String) : Except HttpErr DB :=
  runHandler false "Invalid workshop ID" (delete_workshop_raised db workshop_id)

/-- `delete_machine` body including the ObjectId parse. -/
def delete_machine_raised (db : DB) (machine_id : String) : Raised DB :=
  match parseId machine_id with
  | none => .invalidId
  | some mid => delete_machine_core db mid

/-- Full `delete_machine` handler. -/
def delete_machine_handler (db : DB) (machine_id : String) : Except HttpErr DB :=
  runHandler false "Invalid machine ID" (delete_machine_raised db machine_id)

/-- `delete_customer` body including the ObjectId parse. -/
def delete_customer_raised (db : DB) (customer_id : String) : Raised DB :=
  match parseId customer_id with
  | none => .invalidId
  | some cid => delete_customer_core db cid

/-- Full `delete_customer` handler. -/
def delete_customer_handler (db : DB) (customer_id : String) : Except HttpErr DB :=
  runHandler false "Invalid customer ID" (delete_customer_raised db customer_id)

/-- Full `start_new_beam` handler: its `except HTTPException: raise` clause
passes the body's own HTTP errors through unchanged. -/
def start_new_beam_handler (db : DB) (bn : String) (cid mid : Nat) (t m : Rat)
    (sd : String) : Except HttpErr (DB × Nat) :=
  runHandler true "" (start_new_beam_core db bn cid mid t m sd)

/-! ### Shared helper lemmas -/

/-- Appending a delivery of the beam adds its `meters_used` to the beam's
cumulative sum. -/
theorem metersUsedSum_append_self (l : List Delivery) (d : Delivery) (bid : Nat)
    (h : (d.beam_id == bid) = true) :
    metersUsedSum (l ++ [d]) bid = metersUsedSum l bid + d.meters_used := by
  simp [metersUsedSum, List.filter_append, h]

/-- `completeBeam` never changes a beam's id. -/
theorem completeBeam_id (today : String) (bid : Nat) (b : Beam) :
    (completeBeam today bid b).id = b.id := by
  unfold completeBeam
  split <;> rfl

/-- Looking a beam up by id after the `completeBeam` update finds the updated
version of the beam the lookup found before. -/
theorem find?_map_completeBeam (l : List Beam) (today : String) (bid : Nat) :
    (l.map (completeBeam today bid)).find? (fun b => b.id == bid) =
      (l.find? (fun b => b.id == bid)).map (completeBeam today bid) := by
  induction l with
  | nil => rfl
  | cons b t ih =>
      simp only [List.map_cons, List.find?_cons, completeBeam_id]
      cases hb : (b.id == bid) <;> simp [hb, ih]

/-! ### C1 — the auto-completion update is not guarded by status -/

/-- Counterexample to C1 as stated: on a Beam that is already completed
(end_date 2024-01-01), `add_delivery` on 2024-06-01 still fires the
auto-completion update — the source's `update_one` filter is `{"_id": ...}`
with no status clause — and the Beam's `end_date` is overwritten with today,
contradicting "the auto-completion step is a no-op and in particular its
end_date is not changed". -/
theorem addDelivery_autocomplete_unguarded_cex :
    (dbX1.beams.map (fun b => (b.status, b.end_date)) =
       [("completed", some "2024-01-01")]) ∧
    ((applyR2 dbX1 (add_delivery_core "2024-06-01" dbX1 1 "2024-06-01" "d" 5 1 0
        none)).beams.map (fun b => (b.status, b.end_date)) =
       [("completed", some "2024-06-01")]) := by
  constructor
  · rfl
  · norm_num [add_delivery_core, dbX1, mkDB, mkBeam, mkDelivery, metersUsedSum,
      completeBeam, applyR2]

/-- C1 amended: after `add_delivery` inserts a Delivery, the cumulative
`meters_used` over the Beam's deliveries is recomputed; if the sum is
`≥ total_beam_meters` the Beam's status is set to completed and its
`end_date` to today's server date **unconditionally** — there is no
still-active guard, so on an already-completed Beam the update re-applies and
overwrites `end_date`; if the sum stays below the capacity the beams
collection is unchanged. -/
theorem addDelivery_autocomplete_unconditional
    (today : String) (db : DB) (bid : Nat) (dd dn : String) (pr : Rat)
    (g dm : Int) (nt : Option String) (beam : Beam)
    (hfind : db.beams.find? (fun b => b.id == bid) = some beam) :
    ∃ db' did, add_delivery_core today db bid dd dn pr g dm nt = .ok (db', did) ∧
      (metersUsedSum db.deliveries bid + ((g + dm : Int) : Rat) * beam.meters_per_piece
          ≥ beam.total_beam_meters →
        db'.beams.find? (fun b => b.id == bid) =
          some { beam with status := "completed", end_date := some today }) ∧
      (metersUsedSum db.deliveries bid + ((g + dm : Int) : Rat) * beam.meters_per_piece
          < beam.total_beam_meters →
        db'.beams = db.beams) := by
  have hbeam : (beam.id == bid) = true := by
    have := List.find?_some hfind
    simpa using this
  simp only [add_delivery_core, hfind]
  rw [metersUsedSum_append_self _ _ _ (by simp)]
  split
  · rename_i hge
    refine ⟨_, _, rfl, fun _ => ?_, fun hlt => absurd hge (by simpa using not_le.mpr hlt)⟩
    rw [find?_map_completeBeam, hfind]
    simp [completeBeam, hbeam]
  · rename_i hlt
    exact ⟨_, _, rfl, fun hge => absurd hge hlt, fun _ => rfl⟩

/-- Witness for the amended C1: applied to the completed-beam fixture, the
sum condition holds and the completed beam's end_date is overwritten. -/
theorem addDelivery_autocomplete_unconditional_witness :
    ∃ db' did, add_delivery_core "2024-06-01" dbX1 1 "2024-06-01" "d" 5 1 0 none
        = .ok (db', did) ∧
      (metersUsedSum dbX1.deliveries 1 +
          ((1 + 0 : Int) : Rat) * (mkBeam 1 "B1" 1 10 1 "completed" (some "2024-01-01")).meters_per_piece
          ≥ (mkBeam 1 "B1" 1 10 1 "completed" (some "2024-01-01")).total_beam_meters →
        db'.beams.find? (fun b => b.id == 1) =
          some { mkBeam 1 "B1" 1 10 1 "completed" (some "2024-01-01") with
                   status := "completed", end_date := some "2024-06-01" }) ∧
      (metersUsedSum dbX1.deliveries 1 +
          ((1 + 0 : Int) : Rat) * (mkBeam 1 "B1" 1 10 1 "completed" (some "2024-01-01")).meters_per_piece
          < (mkBeam 1 "B1" 1 10 1 "completed" (some "2024-01-01")).total_beam_meters →
        db'.beams = dbX1.beams) :=
  addDelivery_autocomplete_unconditional "2024-06-01" dbX1 1 "2024-06-01" "d" 5 1 0 none
    (mkBeam 1 "B1" 1 10 1 "completed" (some "2024-01-01")) rfl

/-! ### C3 — derived quantities stored by `add_delivery` -/

/-- C3: every Delivery created by `add_delivery` on an existing Beam stores
`meters_used = (good_pieces + damaged_pieces) * meters_per_piece` (the Beam's
rate at delivery time) and `total_amount = good_pieces * price_per_piece`;
concretely, `addDelivery(good=70, damaged=0, price=10)` on a Beam with
`meters_per_piece=2`, `total_beam_meters=140` and no prior deliveries yields
`meters_used=140`, `total_amount=700`, and the Beam becomes completed with
`end_date = today`. -/
theorem addDelivery_derived_quantities
    (today : String) (db : DB) (bid : Nat) (dd dn : String) (pr : Rat)
    (g dm : Int) (nt : Option String) (beam : Beam)
    (hfind : db.beams.find? (fun b => b.id == bid) = some beam) :
    (∃ db' did, add_delivery_core today db bid dd dn pr g dm nt = .ok (db', did) ∧
       ∃ newD : Delivery, db'.deliveries = db.deliveries ++ [newD] ∧
         newD.good_pieces = g ∧ newD.damaged_pieces = dm ∧
         newD.meters_used = ((g + dm : Int) : Rat) * beam.meters_per_piece ∧
         newD.total_amount = (g : Rat) * pr) ∧
    ((applyR2 dbW3 (add_delivery_core "2024-05-05" dbW3 1 "2024-05-05" "saree" 10 70 0
        none)).deliveries.map (fun d => (d.meters_used, d.total_amount)) = [(140, 700)] ∧
     (applyR2 dbW3 (add_delivery_core "2024-05-05" dbW3 1 "2024-05-05" "saree" 10 70 0
        none)).beams.map (fun b => (b.status, b.end_date)) =
       [("completed", some "2024-05-05")]) := by
  constructor
  · simp only [add_delivery_core, hfind]
    split
    · exact ⟨_, _, rfl, _, rfl, rfl, rfl, rfl, rfl⟩
    · exact ⟨_, _, rfl, _, rfl, rfl, rfl, rfl, rfl⟩
  · constructor <;>
      norm_num [add_delivery_core, dbW3, mkDB, mkBeam, metersUsedSum, completeBeam, applyR2]

/-- Witness for C3: the theorem applied to the fixture state. -/
theorem addDelivery_derived_quantities_witness :
    (∃ db' did, add_delivery_core "2024-05-05" dbW3 1 "2024-05-05" "saree" 10 70 0 none
        = .ok (db', did) ∧
       ∃ newD : Delivery, db'.deliveries = dbW3.deliveries ++ [newD] ∧
         newD.good_pieces = 70 ∧ newD.damaged_pieces = 0 ∧
         newD.meters_used = ((70 + 0 : Int) : Rat) * (mkBeam 1 "B1" 1 140 2 "active" none).meters_per_piece ∧
         newD.total_amount = ((70 : Int) : Rat) * 10) ∧
    ((applyR2 dbW3 (add_delivery_core "2024-05-05" dbW3 1 "2024-05-05" "saree" 10 70 0
        none)).deliveries.map (fun d => (d.meters_used, d.total_amount)) = [(140, 700)] ∧
     (applyR2 dbW3 (add_delivery_core "2024-05-05" dbW3 1 "2024-05-05" "saree" 10 70 0
        none)).beams.map (fun b => (b.status, b.end_date)) =
       [("completed", some "2024-05-05")]) :=
  addDelivery_derived_quantities "2024-05-05" dbW3 1 "2024-05-05" "saree" 10 70 0 none
    (mkBeam 1 "B1" 1 140 2 "active" none) rfl

/-! ### C4 — `end_beam` on an already-completed beam -/

/-- C4: for every Beam whose status is not active, `end_beam` raises
Conflict ("Beam is already completed") and leaves the state — in particular
the Beam's `end_date` — unchanged. -/
theorem endBeam_completed_conflict
    (today : String) (db : DB) (bid : Nat) (beam : Beam)
    (hfind : db.beams.find? (fun b => b.id == bid) = some beam)
    (hstatus : beam.status ≠ "active") :
    end_beam_core today db bid = .httpExc 400 "Beam is already completed" ∧
    applyR db (end_beam_core today db bid) = db := by
  have h1 : end_beam_core today db bid = .httpExc 400 "Beam is already completed" := by
    simp only [end_beam_core, hfind]
    simp [hstatus]
  exact ⟨h1, by rw [h1]; rfl⟩

/-- Witness for C4: the theorem applied to the fixture state. -/
theorem endBeam_completed_conflict_witness :
    end_beam_core "2024-06-01" dbW4 1 = .httpExc 400 "Beam is already completed" ∧
    applyR dbW4 (end_beam_core "2024-06-01" dbW4 1) = dbW4 :=
  endBeam_completed_conflict "2024-06-01" dbW4 1
    (mkBeam 1 "B1" 1 100 2 "completed" (some "2024-01-31")) rfl (by decide)

/-! ### C6 — `delete_beam` cascades to deliveries -/

/-- C6: deleting an existing Beam removes every Delivery referencing it,
keeps every other Delivery, and a subsequent `get_beam_details` on the
deleted id raises NotFound. -/
theorem deleteBeam_cascades (db : DB) (bid : Nat)
    (h : db.beams.any (fun b => b.id == bid) = true) :
    ∃ db', delete_beam_core db bid = .ok db' ∧
      (∀ d ∈ db'.deliveries, (d.beam_id == bid) = false) ∧
      (∀ d ∈ db.deliveries, (d.beam_id == bid) = false → d ∈ db'.deliveries) ∧
      get_beam_details_core db' bid = .httpExc 404 "Beam not found" := by
  refine ⟨{ db with beams := db.beams.filter (fun b => b.id != bid),
                    deliveries := db.deliveries.filter (fun d => d.beam_id != bid) },
          ?_, ?_, ?_, ?_⟩
  · unfold delete_beam_core
    rw [if_pos h]
  · intro d hd
    have hmem := List.mem_filter.mp hd
    simpa using hmem.2
  · intro d hd hbid
    exact List.mem_filter.mpr ⟨hd, by simpa using hbid⟩
  · have hnone : (db.beams.filter (fun b => b.id != bid)).find?
        (fun b => b.id == bid) = none := by
      rw [List.find?_eq_none]
      intro x hx
      have := (List.mem_filter.mp hx).2
      simp_all
    simp only [get_beam_details_core, hnone]

/-- Witness for C6: the theorem applied to the fixture state. -/
theorem deleteBeam_cascades_witness :
    ∃ db', delete_beam_core dbW6 1 = .ok db' ∧
      (∀ d ∈ db'.deliveries, (d.beam_id == 1) = false) ∧
      (∀ d ∈ dbW6.deliveries, (d.beam_id == 1) = false → d ∈ db'.deliveries) ∧
      get_beam_details_core db' 1 = .httpExc 404 "Beam not found" :=
  deleteBeam_cascades dbW6 1 rfl

/-! ### C7 — `get_beam_details` on a beam with no deliveries -/

/-- C7: for an existing Beam with zero deliveries, `get_beam_details`
returns all the delivery totals equal to zero and
`meter_usage_percentage = 0`, with no positivity hypothesis on
`meters_per_piece` or `total_beam_meters`: both divisions are guarded in the
source (`if ... > 0 else 0`), so the zero cases produce 0 instead of a
division by zero. -/
theorem getBeamDetails_empty_totals (db : DB) (bid : Nat) (beam : Beam)
    (hfind : db.beams.find? (fun b => b.id == bid) = some beam)
    (hnil : db.deliveries.filter (fun d => d.beam_id == bid) = []) :
    get_beam_details_core db bid = .ok (beam, [],
      { total_good := 0, total_damaged := 0, total_meters_used := 0,
        total_amount := 0, remaining_meters := beam.total_beam_meters,
        estimated_pieces_remaining := truncInt (if beam.meters_per_piece > 0
          then beam.total_beam_meters / beam.meters_per_piece else 0),
        meter_usage_percentage := 0 }) := by
  simp only [get_beam_details_core, hfind, hnil, List.map_nil, List.sum_nil,
    sub_zero, zero_div, zero_mul, ite_self]

/-- Witness for C7: the theorem applied to the fixture state with
`total_beam_meters = 0` and `meters_per_piece = 0`. -/
theorem getBeamDetails_empty_totals_witness :
    get_beam_details_core dbW7 1 = .ok (mkBeam 1 "B1" 1 0 0 "active" none, [],
      { total_good := 0, total_damaged := 0, total_meters_used := 0,
        total_amount := 0,
        remaining_meters := (mkBeam 1 "B1" 1 0 0 "active" none).total_beam_meters,
        estimated_pieces_remaining :=
          truncInt (if (mkBeam 1 "B1" 1 0 0 "active" none).meters_per_piece > 0
            then (mkBeam 1 "B1" 1 0 0 "active" none).total_beam_meters /
              (mkBeam 1 "B1" 1 0 0 "active" none).meters_per_piece else 0),
        meter_usage_percentage := 0 }) :=
  getBeamDetails_empty_totals dbW7 1 (mkBeam 1 "B1" 1 0 0 "active" none) rfl rfl

/-! ### C9 — `delete_delivery` deletes the row only -/

/-- C9: deleting an existing Delivery removes exactly that row: every other
collection — in particular `beams`, hence every Beam's status and end_date —
is left byte-for-byte unchanged, even when the removal would make a completed
Beam's remaining meters positive again. -/
theorem deleteDelivery_frame (db : DB) (did : Nat)
    (h : db.deliveries.any (fun d => d.id == did) = true) :
    ∃ db', delete_delivery_core db did = .ok db' ∧
      db'.beams = db.beams ∧ db'.customers = db.customers ∧
      db'.workshops = db.workshops ∧ db'.machines = db.machines ∧
      db'.design_presets = db.design_presets ∧ db'.nextId = db.nextId ∧
      db'.deliveries = db.deliveries.filter (fun d => d.id != did) := by
  unfold delete_delivery_core
  rw [if_pos h]
  exact ⟨_, rfl, rfl, rfl, rfl, rfl, rfl, rfl, rfl⟩

/-- Witness for C9: the theorem applied to the fixture state, where the
deleted delivery had exhausted the completed beam's meters. -/
theorem deleteDelivery_frame_witness :
    ∃ db', delete_delivery_core dbW9 5 = .ok db' ∧
      db'.beams = dbW9.beams ∧ db'.customers = dbW9.customers ∧
      db'.workshops = dbW9.workshops ∧ db'.machines = dbW9.machines ∧
      db'.design_presets = dbW9.design_presets ∧ db'.nextId = dbW9.nextId ∧
      db'.deliveries = dbW9.deliveries.filter (fun d => d.id != 5) :=
  deleteDelivery_frame dbW9 5 rfl

/-! ### C5 — `start_new_beam` with a duplicate beam_number -/

/-- Counterexample to C5 as stated: the machine-existence check runs before
the duplicate-beam_number check, so calling `start_new_beam` with the taken
beam_number B1 but a nonexistent machine id 99 fails with NotFound (404
"Machine not found"), not with a Conflict. -/
theorem startBeam_duplicate_notfound_cex :
    (dbX5.beams.any (fun b => b.beam_number == "B1") = true) ∧
    start_new_beam_core dbX5 "B1" 1 99 100 2 "2024-06-01" =
      .httpExc 404 "Machine not found" := by
  exact ⟨rfl, rfl⟩

/-- C5 amended: `start_new_beam` with a beam_number some Beam already has
never inserts a Beam — it always fails; the failure is a Conflict
(status-400 raise) whenever `machine_id` references an existing Machine
(either the duplicate-number conflict or, if that machine also has an active
beam, the active-beam conflict, which is checked first), and NotFound when
the machine does not exist. -/
theorem startBeam_duplicate_no_insert
    (db : DB) (bn : String) (cid mid : Nat) (t m : Rat) (sd : String)
    (hdup : db.beams.any (fun b => b.beam_number == bn) = true) :
    (∃ s msg, start_new_beam_core db bn cid mid t m sd = .httpExc s msg) ∧
    applyR2 db (start_new_beam_core db bn cid mid t m sd) = db ∧
    (∀ machine, db.machines.find? (fun x => x.id == mid) = some machine →
       ∃ msg, start_new_beam_core db bn cid mid t m sd = .httpExc 400 msg) := by
  obtain ⟨w, hwmem, hwp⟩ := List.any_eq_true.mp hdup
  have hsome : ∃ v, db.beams.find? (fun b => b.beam_number == bn) = some v := by
    rw [← Option.isSome_iff_exists]
    exact List.find?_isSome.mpr ⟨w, hwmem, hwp⟩
  obtain ⟨v, hv⟩ := hsome
  have herr : ∃ s msg, start_new_beam_core db bn cid mid t m sd = .httpExc s msg := by
    unfold start_new_beam_core
    cases hm : db.machines.find? (fun x => x.id == mid) with
    | none => exact ⟨404, "Machine not found", rfl⟩
    | some machine =>
        cases hact : db.beams.find? (activeOn mid) with
        | some ex =>
            exact ⟨400, "Machine already has an active beam " ++ ex.beam_number, rfl⟩
        | none => rw [hv]; exact ⟨400, "Duplicate entry " ++ bn ++ " for beam_number", rfl⟩
  obtain ⟨s, msg, hs⟩ := herr
  refine ⟨⟨s, msg, hs⟩, by rw [hs]; rfl, ?_⟩
  intro machine hm
  unfold start_new_beam_core
  rw [hm]
  cases hact : db.beams.find? (activeOn mid) with
  | some ex => exact ⟨"Machine already has an active beam " ++ ex.beam_number, rfl⟩
  | none => rw [hv]; exact ⟨"Duplicate entry " ++ bn ++ " for beam_number", rfl⟩

/-- Witness for the amended C5 at the concrete fixture. -/
theorem startBeam_duplicate_no_insert_witness :
    (∃ s msg, start_new_beam_core dbW5 "B1" 1 1 100 2 "2024-06-01" = .httpExc s msg) ∧
    applyR2 dbW5 (start_new_beam_core dbW5 "B1" 1 1 100 2 "2024-06-01") = dbW5 ∧
    (∀ machine, dbW5.machines.find? (fun x => x.id == 1) = some machine →
       ∃ msg, start_new_beam_core dbW5 "B1" 1 1 100 2 "2024-06-01" = .httpExc 400 msg) :=
  startBeam_duplicate_no_insert dbW5 "B1" 1 1 100 2 "2024-06-01" rfl

/-! ### C8 — `delete_customer` performs no Beam-reference check -/

/-- Counterexample to C8 as stated: the source's `delete_customer` is a bare
`delete_one` with no Beam-reference check, so deleting customer 1 — which is
referenced by beam B1 — succeeds and removes the record, contradicting
"deletion is blocked with Conflict and the record remains". -/
theorem deleteCustomer_not_blocked_cex :
    (dbX8.beams.any (fun b => b.customer_id == 1) = true) ∧
    delete_customer_core dbX8 1 =
      .ok { dbX8 with customers := [] } := by
  exact ⟨rfl, rfl⟩

/-- C8 amended: `delete_customer` checks only existence: for every existing
Customer — even one referenced by Beams — deletion succeeds, removes the
Customer record and leaves the beams collection (with its now-dangling
`customer_id` references) unchanged; NotFound is raised only when the
Customer is absent. -/
theorem deleteCustomer_unchecked (db : DB) (cid : Nat)
    (h : db.customers.any (fun c => c.id == cid) = true) :
    ∃ db', delete_customer_core db cid = .ok db' ∧
      db'.customers = db.customers.filter (fun c => c.id != cid) ∧
      db'.beams = db.beams := by
  unfold delete_customer_core
  rw [if_pos h]
  exact ⟨_, rfl, rfl, rfl⟩

/-- Witness for the amended C8 at the concrete fixture (customer 1 is
referenced by beam B1 and is deleted anyway). -/
theorem deleteCustomer_unchecked_witness :
    ∃ db', delete_customer_core dbX8 1 = .ok db' ∧
      db'.customers = dbX8.customers.filter (fun c => c.id != 1) ∧
      db'.beams = dbX8.beams :=
  deleteCustomer_unchecked dbX8 1 rfl

/-! ### C2 — at most one active beam per machine, at every reachable state -/

/-- A beam turned completed (or left alone) by `completeBeam` is only active
on a machine if it already was. -/
theorem activeOn_completeBeam (today : String) (bid mid : Nat) (b : Beam)
    (h : activeOn mid (completeBeam today bid b) = true) : activeOn mid b = true := by
  unfold completeBeam at h
  split at h
  · simp [activeOn] at h
  · exact h

/-- `completeBeam` never increases a machine's active-beam count. -/
theorem activeCount_map_completeBeam_le (l : List Beam) (today : String)
    (bid mid : Nat) :
    activeCount (l.map (completeBeam today bid)) mid ≤ activeCount l mid := by
  unfold activeCount
  rw [List.countP_map]
  exact List.countP_mono_left (fun b _ hb => activeOn_completeBeam today bid mid b hb)

/-- Successful `start_new_beam`: the machine had no active beam, and exactly
one beam (on that machine) was appended. -/
theorem start_ok_beams (db : DB) (bn : String) (cid mid : Nat) (t m : Rat)
    (sd : String) (db' : DB) (rid : Nat)
    (h : start_new_beam_core db bn cid mid t m sd = .ok (db', rid)) :
    db.beams.find? (activeOn mid) = none ∧
    ∃ nb : Beam, nb.machine_id = mid ∧ db'.beams = db.beams ++ [nb] := by
  unfold start_new_beam_core at h
  split at h
  · cases h
  · split at h
    · cases h
    · split at h
      · cases h
      · rename_i hact _ _
        cases h
        exact ⟨hact, _, rfl, rfl⟩

/-- Successful `end_beam` leaves the beams list equal to a `completeBeam`
image of the old one. -/
theorem endBeam_ok_beams (today : String) (db : DB) (bid : Nat) (db' : DB)
    (h : end_beam_core today db bid = .ok db') :
    db'.beams = db.beams.map (completeBeam today bid) := by
  unfold end_beam_core at h
  split at h
  · cases h
  · split at h
    · cases h
    · cases h
      rfl

/-- Successful `add_delivery` leaves the beams list either `completeBeam`-d
or unchanged. -/
theorem addDelivery_ok_beams (today : String) (db : DB) (bid : Nat)
    (dd dn : String) (pr : Rat) (g dm : Int) (nt : Option String)
    (db' : DB) (rid : Nat)
    (h : add_delivery_core today db bid dd dn pr g dm nt = .ok (db', rid)) :
    db'.beams = db.beams.map (completeBeam today bid) ∨ db'.beams = db.beams := by
  unfold add_delivery_core at h
  split at h
  · cases h
  · simp only [] at h
    split at h
    · cases h
      exact Or.inl rfl
    · cases h
      exact Or.inr rfl

/-- Successful `delete_beam` filters the beams list. -/
theorem deleteBeam_ok_beams (db : DB) (bid : Nat) (db' : DB)
    (h : delete_beam_core db bid = .ok db') :
    db'.beams = db.beams.filter (fun b => b.id != bid) := by
  unfold delete_beam_core at h
  split at h
  · cases h
    rfl
  · cases h

/-- All remaining mutations leave the beams collection untouched. -/
theorem other_ok_beams (db db' : DB) :
    (∀ did, delete_delivery_core db did = .ok db' → db'.beams = db.beams) ∧
    (∀ mid, delete_machine_core db mid = .ok db' → db'.beams = db.beams) ∧
    (∀ cid, delete_customer_core db cid = .ok db' → db'.beams = db.beams) ∧
    (∀ wid, delete_workshop_core db wid = .ok db' → db'.beams = db.beams) ∧
    (∀ pid, delete_design_preset_core db pid = .ok db' → db'.beams = db.beams) ∧
    (∀ name rid, create_customer_core db name = .ok (db', rid) → db'.beams = db.beams) ∧
    (∀ name location mc wt rid,
       create_workshop_core db name location mc wt = .ok (db', rid) → db'.beams = db.beams) ∧
    (∀ wid mn ft rid, create_machine_core db wid mn ft = .ok (db', rid) → db'.beams = db.beams) ∧
    (∀ price label rid,
       create_design_preset_core db price label = .ok (db', rid) → db'.beams = db.beams) ∧
    (∀ cid st, toggle_customer_status_core db cid st = .ok db' → db'.beams = db.beams) := by
  refine ⟨fun did h => ?_, fun mid h => ?_, fun cid h => ?_, fun wid h => ?_,
          fun pid h => ?_, fun name rid h => ?_, fun name location mc wt rid h => ?_,
          fun wid mn ft rid h => ?_, fun price label rid h => ?_, fun cid st h => ?_⟩
  · unfold delete_delivery_core at h
    split at h
    · cases h; rfl
    · cases h
  · unfold delete_machine_core at h
    split at h
    · cases h
    · split at h
      · cases h; rfl
      · cases h
  · unfold delete_customer_core at h
    split at h
    · cases h; rfl
    · cases h
  · unfold delete_workshop_core at h
    split at h
    · cases h
    · split at h
      · cases h; rfl
      · cases h
  · unfold delete_design_preset_core at h
    split at h
    · cases h; rfl
    · cases h
  · unfold create_customer_core at h
    split at h
    · cases h
    · cases h; rfl
  · unfold create_workshop_core at h
    cases h; rfl
  · unfold create_machine_core at h
    split at h
    · cases h
    · cases h; rfl
  · unfold create_design_preset_core at h
    cases h; rfl
  · unfold toggle_customer_status_core at h
    split at h
    · cases h
    · split at h
      · cases h; rfl
      · cases h

/-- Every successful mutation preserves the "at most one active beam per
machine" invariant. -/
theorem step_preserves_activeCount (db db' : DB) (hs : Step db db')
    (hinv : ∀ mid, activeCount db.beams mid ≤ 1) :
    ∀ mid, activeCount db'.beams mid ≤ 1 := by
  intro mid
  cases hs with
  | startBeam db bn cid mid0 t m sd db' rid h =>
      obtain ⟨hact, nb, hnbm, hbeams⟩ := start_ok_beams db bn cid mid0 t m sd db' rid h
      rw [hbeams]
      unfold activeCount
      rw [List.countP_append]
      by_cases hmid : mid = mid0
      · subst hmid
        have hzero : db.beams.countP (activeOn mid) = 0 :=
          List.countP_eq_zero.mpr (List.find?_eq_none.mp hact)
        rw [hzero]
        simp [List.countP_cons]
        split <;> omega
      · have hnb : activeOn mid nb = false := by
          unfold activeOn
          have hne : (nb.machine_id == mid) = false := by
            rw [hnbm]
            exact beq_eq_false_iff_ne.mpr (fun e => hmid e.symm)
          simp [hne]
        have h1 : [nb].countP (activeOn mid) = 0 := by
          simp [List.countP_cons, hnb]
        rw [h1]
        have := hinv mid
        unfold activeCount at this
        omega
  | endBeam today db bid db' h =>
      rw [endBeam_ok_beams today db bid db' h]
      exact le_trans (activeCount_map_completeBeam_le db.beams today bid mid) (hinv mid)
  | addDelivery today db bid dd dn pr g dm nt db' rid h =>
      rcases addDelivery_ok_beams today db bid dd dn pr g dm nt db' rid h with
        hb | hb
      · rw [hb]
        exact le_trans (activeCount_map_completeBeam_le db.beams today bid mid) (hinv mid)
      · rw [hb]
        exact hinv mid
  | deleteBeam db bid db' h =>
      rw [deleteBeam_ok_beams db bid db' h]
      have hle := hinv mid
      unfold activeCount at hle ⊢
      exact le_trans (List.Sublist.countP_le (activeOn mid) (List.filter_sublist db.beams)) hle
  | deleteDelivery db did db' h =>
      rw [(other_ok_beams db db').1 did h]; exact hinv mid
  | deleteMachine db mid0 db' h =>
      rw [(other_ok_beams db db').2.1 mid0 h]; exact hinv mid
  | deleteCustomer db cid db' h =>
      rw [(other_ok_beams db db').2.2.1 cid h]; exact hinv mid
  | deleteWorkshop db wid db' h =>
      rw [(other_ok_beams db db').2.2.2.1 wid h]; exact hinv mid
  | deleteDesignPreset db pid db' h =>
      rw [(other_ok_beams db db').2.2.2.2.1 pid h]; exact hinv mid
  | createCustomer db name db' rid h =>
      rw [(other_ok_beams db db').2.2.2.2.2.1 name rid h]; exact hinv mid
  | createWorkshop db name location mc wt db' rid h =>
      rw [(other_ok_beams db db').2.2.2.2.2.2.1 name location mc wt rid h]; exact hinv mid
  | createMachine db wid mn ft db' rid h =>
      rw [(other_ok_beams db db').2.2.2.2.2.2.2.1 wid mn ft rid h]; exact hinv mid
  | createDesignPreset db price label db' rid h =>
      rw [(other_ok_beams db db').2.2.2.2.2.2.2.2.1 price label rid h]; exact hinv mid
  | toggleCustomerStatus db cid st db' h =>
      rw [(other_ok_beams db db').2.2.2.2.2.2.2.2.2 cid st h]; exact hinv mid

/-- C2: at every state reachable by the API mutations, every machine is
referenced by at most one beam with status active; and `start_new_beam` on a
machine that already has an active beam raises Conflict (naming the existing
beam's number) and changes nothing. -/
theorem activeBeam_invariant :
    (∀ db, Reachable db → ∀ mid, activeCount db.beams mid ≤ 1) ∧
    (∀ db bn cid mid t m sd machine ex,
       db.machines.find? (fun x => x.id == mid) = some machine →
       db.beams.find? (activeOn mid) = some ex →
       start_new_beam_core db bn cid mid t m sd =
         .httpExc 400 ("Machine already has an active beam " ++ ex.beam_number) ∧
       applyR2 db (start_new_beam_core db bn cid mid t m sd) = db) := by
  constructor
  · intro db h
    induction h with
    | init => intro mid; simp [initDB, activeCount]
    | step db db' hr hs ih => exact step_preserves_activeCount db db' hs ih
  · intro db bn cid mid t m sd machine ex hm hact
    have h1 : start_new_beam_core db bn cid mid t m sd =
        .httpExc 400 ("Machine already has an active beam " ++ ex.beam_number) := by
      unfold start_new_beam_core
      rw [hm, hact]
    exact ⟨h1, by rw [h1]; rfl⟩

/-- `dbS3` is reachable from the empty database. -/
theorem dbS3_reachable : Reachable dbS3 :=
  Reachable.step dbS2 dbS3
    (Reachable.step dbS1 dbS2
      (Reachable.step initDB dbS1 Reachable.init
        (Step.createWorkshop initDB "W" "L" 4 "power" dbS1 1 rfl))
      (Step.createMachine dbS1 1 1 "cotton" dbS2 2 rfl))
    (Step.startBeam dbS2 "B1" 1 2 50 1 "2024-02-01" dbS3 3 rfl)

/-- Witness for C2: the invariant at the reachable state `dbS3`, and the
Conflict raised by a second `start_new_beam` on the busy machine 2. -/
theorem activeBeam_invariant_witness :
    activeCount dbS3.beams 2 ≤ 1 ∧
    (start_new_beam_core dbS3 "B2" 1 2 80 2 "2024-03-01" =
       .httpExc 400 ("Machine already has an active beam " ++ beamS3.beam_number) ∧
     applyR2 dbS3 (start_new_beam_core dbS3 "B2" 1 2 80 2 "2024-03-01") = dbS3) :=
  ⟨activeBeam_invariant.1 dbS3 dbS3_reachable 2,
   activeBeam_invariant.2 dbS3 "B2" 1 2 80 2 "2024-03-01" machineS2 beamS3 rfl rfl⟩

/-! ### C10 — generic `except Exception` clauses swallow the handlers' own
HTTP errors

Each path-parameter handler is `try: <body> except InvalidId: 400
except Exception as e: 500 str(e)`.  `fastapi.HTTPException` is a subclass of
`Exception` and `str(e)` is `f"{status_code}: {detail}"`, so a 404/409-style
raise from inside the body resurfaces as a 500 whose message embeds the
original.  `start_new_beam` (like `login` and `reset_database`) instead has a
dedicated `except HTTPException: raise` clause.  ObjectId parsing of a path
id is modelled by `parseId`; `start_new_beam`'s core takes already-parsed ids
and never yields `.invalidId` (the source has no `except InvalidId` clause
there). -/

/-- A body that raised an `HTTPException` surfaces as a 500 when the handler
has no pass-through clause. -/
theorem runHandler_httpExc_catch {α : Type} (inv : String) (r : Raised α)
    (s : Nat) (d : String) (h : r = .httpExc s d) :
    runHandler false inv r = .error ⟨500, httpDetail s d⟩ := by
  subst h
  rfl

/-- With a pass-through clause the raised `HTTPException` surfaces as-is. -/
theorem runHandler_httpExc_pass {α : Type} (inv : String) (r : Raised α)
    (s : Nat) (d : String) (h : r = .httpExc s d) :
    runHandler true inv r = .error ⟨s, d⟩ := by
  subst h
  rfl

/-- C10: in the eight path-parameter handlers (`end_beam`,
`get_beam_details`, `delete_beam`, `add_delivery`, `delete_delivery`,
`delete_workshop`, `delete_machine`, `delete_customer`), every
NotFound/Conflict `HTTPException` the body itself raises is caught by the
trailing generic `except Exception` clause and resurfaces as a 500 whose
detail embeds the original status and message — these handlers, unlike
`start_new_beam` (whose own HTTP errors pass through unchanged, last
conjunct), have no `except HTTPException: raise` clause; only the
malformed-identifier branch escapes the conversion, as a 400 (middle
conjuncts). -/
theorem handlers_convert_own_http_errors_to_500 :
    (∀ today db bids s d, end_beam_raised today db bids = .httpExc s d →
       end_beam_handler today db bids = .error ⟨500, httpDetail s d⟩) ∧
    (∀ db bids s d, get_beam_details_raised db bids = .httpExc s d →
       get_beam_details_handler db bids = .error ⟨500, httpDetail s d⟩) ∧
    (∀ db bids s d, delete_beam_raised db bids = .httpExc s d →
       delete_beam_handler db bids = .error ⟨500, httpDetail s d⟩) ∧
    (∀ today db bids dd dn pr g dm nt s d,
       add_delivery_raised today db bids dd dn pr g dm nt = .httpExc s d →
       add_delivery_handler today db bids dd dn pr g dm nt =
         .error ⟨500, httpDetail s d⟩) ∧
    (∀ db dids s d, delete_delivery_raised db dids = .httpExc s d →
       delete_delivery_handler db dids = .error ⟨500, httpDetail s d⟩) ∧
    (∀ db wids s d, delete_workshop_raised db wids = .httpExc s d →
       delete_workshop_handler db wids = .error ⟨500, httpDetail s d⟩) ∧
    (∀ db mids s d, delete_machine_raised db mids = .httpExc s d →
       delete_machine_handler db mids = .error ⟨500, httpDetail s d⟩) ∧
    (∀ db cids s d, delete_customer_raised db cids = .httpExc s d →
       delete_customer_handler db cids = .error ⟨500, httpDetail s d⟩) ∧
    (∀ today db bids, parseId bids = none →
       end_beam_handler today db bids = .error ⟨400, "Invalid beam ID"⟩) ∧
    (∀ db bids, parseId bids = none →
       get_beam_details_handler db bids = .error ⟨400, "Invalid beam ID"⟩) ∧
    (∀ db bids, parseId bids = none →
       delete_beam_handler db bids = .error ⟨400, "Invalid beam ID"⟩) ∧
    (∀ today db bids dd dn pr g dm nt, parseId bids = none →
       add_delivery_handler today db bids dd dn pr g dm nt =
         .error ⟨400, "Invalid beam ID"⟩) ∧
    (∀ db dids, parseId dids = none →
       delete_delivery_handler db dids = .error ⟨400, "Invalid delivery ID"⟩) ∧
    (∀ db wids, parseId wids = none →
       delete_workshop_handler db wids = .error ⟨400, "Invalid workshop ID"⟩) ∧
    (∀ db mids, parseId mids = none →
       delete_machine_handler db mids = .error ⟨400, "Invalid machine ID"⟩) ∧
    (∀ db cids, parseId cids = none →
       delete_customer_handler db cids = .error ⟨400, "Invalid customer ID"⟩) ∧
    (∀ db bn cid mid t m sd s d,
       start_new_beam_core db bn cid mid t m sd = .httpExc s d →
       start_new_beam_handler db bn cid mid t m sd = .error ⟨s, d⟩) := by
  refine ⟨?_, ?_, ?_, ?_, ?_, ?_, ?_, ?_, ?_, ?_, ?_, ?_, ?_, ?_, ?_, ?_, ?_⟩
  · intro today db bids s d h
    exact runHandler_httpExc_catch _ _ _ _ h
  · intro db bids s d h
    exact runHandler_httpExc_catch _ _ _ _ h
  · intro db bids s d h
    exact runHandler_httpExc_catch _ _ _ _ h
  · intro today db bids dd dn pr g dm nt s d h
    exact runHandler_httpExc_catch _ _ _ _ h
  · intro db dids s d h
    exact runHandler_httpExc_catch _ _ _ _ h
  · intro db wids s d h
    exact runHandler_httpExc_catch _ _ _ _ h
  · intro db mids s d h
    exact runHandler_httpExc_catch _ _ _ _ h
  · intro db cids s d h
    exact runHandler_httpExc_catch _ _ _ _ h
  · intro today db bids h
    unfold end_beam_handler end_beam_raised
    rw [h]
    rfl
  · intro db bids h
    unfold get_beam_details_handler get_beam_details_raised
    rw [h]
    rfl
  · intro db bids h
    unfold delete_beam_handler delete_beam_raised
    rw [h]
    rfl
  · intro today db bids dd dn pr g dm nt h
    unfold add_delivery_handler add_delivery_raised
    rw [h]
    rfl
  · intro db dids h
    unfold delete_delivery_handler delete_delivery_raised
    rw [h]
    rfl
  · intro db wids h
    unfold delete_workshop_handler delete_workshop_raised
    rw [h]
    rfl
  · intro db mids h
    unfold delete_machine_handler delete_machine_raised
    rw [h]
    rfl
  · intro db cids h
    unfold delete_customer_handler delete_customer_raised
    rw [h]
    rfl
  · intro db bn cid mid t m sd s d h
    exact runHandler_httpExc_pass _ _ _ _ h

/-- Witness for C10: `end_beam` on an empty store raises 404 "Beam not
found" inside its body, and the full handler returns 500 with the original
error embedded in the detail. -/
theorem handlers_convert_own_http_errors_to_500_witness :
    end_beam_handler "2024-06-01" initDB "1" =
      .error ⟨500, httpDetail 404 "Beam not found"⟩ :=
  handlers_convert_own_http_errors_to_500.1 "2024-06-01" initDB "1" 404
    "Beam not found" rfl

end Powerloom
